import Mathlib

/-!
Verification development for the `intel-pstate` crate (`src/lib.rs`).

The crate is a thin accessor layer over the sysfs directory
`/sys/devices/system/cpu/intel_pstate/`: it probes the directory at
construction, reads small text files and parses them as `u8` (trimmed),
and writes canonical text values back.  We shallow-embed the crate over an
explicit filesystem state: files are an association list from path to text
content, directories are a list of paths, and writability of a path models
whether `File::create` succeeds there (on real systems writes require
root).  Every operation of the crate becomes a pure function taking the
filesystem state; setters return the updated state.
-/

namespace IntelPstate

instance {e a : Type} [DecidableEq e] [DecidableEq a] : DecidableEq (Except e a) := fun x y =>
  match x, y with
  | .ok v, .ok w => if h : v = w then .isTrue (by rw [h]) else .isFalse (by simp [h])
  | .error v, .error w => if h : v = w then .isTrue (by rw [h]) else .isFalse (by simp [h])
  | .ok _, .error _ => .isFalse (by simp)
  | .error _, .ok _ => .isFalse (by simp)

/-- Rust's `str::trim`: strip leading and trailing whitespace. -/
def rustTrim (s : String) : String :=
  ⟨List.reverse (List.dropWhile Char.isWhitespace
    (List.reverse (List.dropWhile Char.isWhitespace s.toList)))⟩

/-- Model of the `std::io::Error` values this crate produces or observes:
`NotFound` for a missing file on read, `PermissionDenied` for a rejected
write, and `InvalidData` (carrying the formatted parse-error message) as
built by `parse_file`. -/
inductive IoError where
  | notFound
  | permissionDenied
  | invalidData (msg : String)
deriving Repr, DecidableEq

/-- Filesystem state: existing directories, existing files with their text
contents (an association list, first binding wins), and the set of paths
where `File::create` succeeds. -/
structure Fs where
  dirs : List String
  files : List (String × String)
  writable : List String
deriving Repr, DecidableEq

/-- `Path::new(p).is_dir()`. -/
def Fs.isDir (fs : Fs) (p : String) : Bool :=
  fs.dirs.contains p

/-- `Path::new(p).exists()`: true when the path is an existing file or an
existing directory. -/
def Fs.pathExists (fs : Fs) (p : String) : Bool :=
  (fs.files.lookup p).isSome || fs.dirs.contains p

/-- `fs::read_to_string(p)`: the file's contents, or `NotFound`. -/
def Fs.read_to_string (fs : Fs) (p : String) : Except IoError String :=
  match fs.files.lookup p with
  | some c => .ok c
  | none => .error .notFound

/-- `File::create(p)` followed by writing `content`: the file now holds
exactly `content`, truncating any prior contents. -/
def Fs.setFile (fs : Fs) (p content : String) : Fs :=
  { fs with files := (p, content) :: fs.files.filter (fun kv => kv.1 != p) }

/-- `u8::from_str` on an already-trimmed string: an optional leading `+`,
then one or more decimal digits, with the value required to fit in
`0..=255`.  A leading `-` is not consumed for an unsigned type, so it is
an invalid digit.  The error strings are the `Display` forms of Rust's
`ParseIntError` kinds. -/
def parseU8 (s : String) : Except String Nat :=
  match s.toList with
  | [] => .error "cannot parse integer from empty string"
  | c :: cs =>
    let ds := if c = '+' then cs else c :: cs
    if ds.isEmpty then .error "invalid digit found in string"
    else if ds.all Char.isDigit then
      let v := ds.foldl (fun a c => a * 10 + (c.toNat - 48)) 0
      if v ≤ 255 then .ok v else .error "number too large to fit in target type"
    else .error "invalid digit found in string"

/-- `parse_file::<u8>(path)`: read the file to a string, trim it, parse it
as `u8`; a parse failure becomes an `InvalidData` io error carrying the
formatted parse error. -/
def parse_file (fs : Fs) (path : String) : Except IoError Nat :=
  match fs.read_to_string path with
  | .error e => .error e
  | .ok s =>
    match parseU8 (rustTrim s) with
    | .ok v => .ok v
    | .error err => .error (.invalidData err)

/-- `write_value(path, value)`: `write!(File::create(path)?, "{}", value)`.
The value has already been formatted to its canonical text.  Creation
succeeds exactly on writable paths; on success the file holds exactly the
written text.  Returns the io result together with the resulting
filesystem state (unchanged on failure). -/
def write_value (fs : Fs) (path : String) (value : String) :
    Except IoError Unit × Fs :=
  if fs.writable.contains path then (.ok (), fs.setFile path value)
  else (.error .permissionDenied, fs)

/-- The `PStateError` enum: `GetValue { src, source }`, `NotFound`,
`SetValue { src, source }`. -/
inductive PStateError where
  | getValue (src : String) (source : IoError)
  | notFound
  | setValue (src : String) (source : IoError)
deriving Repr, DecidableEq

def HWP_DYNAMIC_BOOST : String := "hwp_dynamic_boost"
def MAX_PERF_PCT : String := "max_perf_pct"
def MIN_PERF_PCT : String := "min_perf_pct"
def NO_TURBO : String := "no_turbo"

/-- The `PStateValues` struct (u8 fields modelled as `Nat`; every value
the crate ever stores in them comes out of `parseU8` or goes in as a `u8`,
hence lies in `0..=255`). -/
structure PStateValues where
  hwp_dynamic_boost : Option Bool
  min_perf_pct : Nat
  max_perf_pct : Nat
  no_turbo : Bool
deriving Repr, DecidableEq

/-- The fixed sysfs base directory probed by `PState::new`. -/
def INTEL_PSTATE_PATH : String := "/sys/devices/system/cpu/intel_pstate/"

/-- The `PState` handle: wraps the base directory path. -/
structure PState where
  path : String
deriving Repr, DecidableEq

namespace PState

/-- `PState::new()`: succeed iff the fixed base path is a directory. -/
def new (fs : Fs) : Except PStateError PState :=
  if fs.isDir INTEL_PSTATE_PATH then .ok ⟨INTEL_PSTATE_PATH⟩
  else .error .notFound

/-- `PState::file`: `[self.path, file].concat()`. -/
def file (p : PState) (f : String) : String :=
  p.path ++ f

/-- `PState::hwp_dynamic_boost`: if the file exists, parse it as `u8` and
return `Some(v == 1)`, mapping failures to `GetValue`; otherwise
`Ok(None)`. -/
def hwp_dynamic_boost (p : PState) (fs : Fs) :
    Except PStateError (Option Bool) :=
  let f := p.file HWP_DYNAMIC_BOOST
  if fs.pathExists f then
    match parse_file fs f with
    | .ok v => .ok (some (v == 1))
    | .error source => .error (.getValue HWP_DYNAMIC_BOOST source)
  else
    .ok none

/-- `PState::set_hwp_dynamic_boost`. -/
def set_hwp_dynamic_boost (p : PState) (fs : Fs) (boost : Bool) :
    Except PStateError Unit × Fs :=
  match write_value fs (p.file HWP_DYNAMIC_BOOST) (if boost then "1" else "0") with
  | (.ok u, fs') => (.ok u, fs')
  | (.error source, fs') => (.error (.setValue HWP_DYNAMIC_BOOST source), fs')

/-- `PState::min_perf_pct`. -/
def min_perf_pct (p : PState) (fs : Fs) : Except PStateError Nat :=
  match parse_file fs (p.file MIN_PERF_PCT) with
  | .ok v => .ok v
  | .error source => .error (.getValue MIN_PERF_PCT source)

/-- `PState::set_min_perf_pct` (the `u8` is formatted in decimal). -/
def set_min_perf_pct (p : PState) (fs : Fs) (min : Nat) :
    Except PStateError Unit × Fs :=
  match write_value fs (p.file MIN_PERF_PCT) (toString min) with
  | (.ok u, fs') => (.ok u, fs')
  | (.error source, fs') => (.error (.setValue MIN_PERF_PCT source), fs')

/-- `PState::max_perf_pct`. -/
def max_perf_pct (p : PState) (fs : Fs) : Except PStateError Nat :=
  match parse_file fs (p.file MAX_PERF_PCT) with
  | .ok v => .ok v
  | .error source => .error (.getValue MAX_PERF_PCT source)

/-- `PState::set_max_perf_pct`. -/
def set_max_perf_pct (p : PState) (fs : Fs) (max : Nat) :
    Except PStateError Unit × Fs :=
  match write_value fs (p.file MAX_PERF_PCT) (toString max) with
  | (.ok u, fs') => (.ok u, fs')
  | (.error source, fs') => (.error (.setValue MAX_PERF_PCT source), fs')

/-- `PState::no_turbo`: parse the file as `u8` and return `value > 0`. -/
def no_turbo (p : PState) (fs : Fs) : Except PStateError Bool :=
  match parse_file fs (p.file NO_TURBO) with
  | .ok value => .ok (decide (value > 0))
  | .error source => .error (.getValue NO_TURBO source)

/-- `PState::set_no_turbo`: write `"1"` for `true`, `"0"` for `false`. -/
def set_no_turbo (p : PState) (fs : Fs) (nt : Bool) :
    Except PStateError Unit × Fs :=
  match write_value fs (p.file NO_TURBO) (if nt then "1" else "0") with
  | (.ok u, fs') => (.ok u, fs')
  | (.error source, fs') => (.error (.setValue NO_TURBO source), fs')

/-- `PState::values`: get `min_perf_pct`, `max_perf_pct`, `no_turbo`,
`hwp_dynamic_boost` in that order, propagating the first failure. -/
def values (p : PState) (fs : Fs) : Except PStateError PStateValues :=
  match p.min_perf_pct fs with
  | .error e => .error e
  | .ok minv =>
    match p.max_perf_pct fs with
    | .error e => .error e
    | .ok maxv =>
      match p.no_turbo fs with
      | .error e => .error e
      | .ok ntv =>
        match p.hwp_dynamic_boost fs with
        | .error e => .error e
        | .ok hdb =>
          .ok { hwp_dynamic_boost := hdb, min_perf_pct := minv,
                max_perf_pct := maxv, no_turbo := ntv }

/-- `PState::set_values`: best-effort set of `hwp_dynamic_boost` when
present (its result is discarded with `let _ = ...`), then
`set_min_perf_pct`, `set_max_perf_pct`, `set_no_turbo`, each propagating
its failure with `?`. -/
def set_values (p : PState) (fs : Fs) (v : PStateValues) :
    Except PStateError Unit × Fs :=
  let fs0 := match v.hwp_dynamic_boost with
    | some boost => (p.set_hwp_dynamic_boost fs boost).2
    | none => fs
  match p.set_min_perf_pct fs0 v.min_perf_pct with
  | (.error e, fs1) => (.error e, fs1)
  | (.ok _, fs1) =>
    match p.set_max_perf_pct fs1 v.max_perf_pct with
    | (.error e, fs2) => (.error e, fs2)
    | (.ok _, fs2) => p.set_no_turbo fs2 v.no_turbo

/-- The filesystem state after the best-effort `hwp_dynamic_boost` step of
`set_values` (the discarded `let _ = ...`). -/
def afterBoost (p : PState) (fs : Fs) (v : PStateValues) : Fs :=
  match v.hwp_dynamic_boost with
  | some boost => (p.set_hwp_dynamic_boost fs boost).2
  | none => fs

end PState

/-! ## Helper lemmas -/

theorem read_setFile (fs : Fs) (p c : String) :
    (fs.setFile p c).read_to_string p = .ok c := by
  simp [Fs.setFile, Fs.read_to_string, List.lookup]

theorem pathExists_of_read_ok {fs : Fs} {p s : String}
    (h : fs.read_to_string p = .ok s) : fs.pathExists p = true := by
  unfold Fs.read_to_string at h
  unfold Fs.pathExists
  cases hl : fs.files.lookup p with
  | none => rw [hl] at h; cases h
  | some c => simp [hl]

set_option maxRecDepth 4000 in
theorem parseU8_rustTrim_toString : ∀ x : Fin 256,
    parseU8 (rustTrim (toString x.val)) = .ok x.val := by decide

theorem parseU8_toString_of_le {v : Nat} (h : v ≤ 255) :
    parseU8 (rustTrim (toString v)) = .ok v :=
  parseU8_rustTrim_toString ⟨v, Nat.lt_succ_of_le h⟩

namespace PState

theorem set_min_perf_pct_eq (p : PState) (fs : Fs) (m : Nat) :
    p.set_min_perf_pct fs m =
      if fs.writable.contains (p.file MIN_PERF_PCT)
      then (.ok (), fs.setFile (p.file MIN_PERF_PCT) (toString m))
      else (.error (.setValue MIN_PERF_PCT .permissionDenied), fs) := by
  by_cases h : p.file MIN_PERF_PCT ∈ fs.writable <;>
    simp [set_min_perf_pct, write_value, h]

theorem set_max_perf_pct_eq (p : PState) (fs : Fs) (m : Nat) :
    p.set_max_perf_pct fs m =
      if fs.writable.contains (p.file MAX_PERF_PCT)
      then (.ok (), fs.setFile (p.file MAX_PERF_PCT) (toString m))
      else (.error (.setValue MAX_PERF_PCT .permissionDenied), fs) := by
  by_cases h : p.file MAX_PERF_PCT ∈ fs.writable <;>
    simp [set_max_perf_pct, write_value, h]

theorem set_no_turbo_eq (p : PState) (fs : Fs) (nt : Bool) :
    p.set_no_turbo fs nt =
      if fs.writable.contains (p.file NO_TURBO)
      then (.ok (), fs.setFile (p.file NO_TURBO) (if nt then "1" else "0"))
      else (.error (.setValue NO_TURBO .permissionDenied), fs) := by
  by_cases h : p.file NO_TURBO ∈ fs.writable <;>
    simp [set_no_turbo, write_value, h]

theorem set_hwp_dynamic_boost_eq (p : PState) (fs : Fs) (b : Bool) :
    p.set_hwp_dynamic_boost fs b =
      if fs.writable.contains (p.file HWP_DYNAMIC_BOOST)
      then (.ok (), fs.setFile (p.file HWP_DYNAMIC_BOOST) (if b then "1" else "0"))
      else (.error (.setValue HWP_DYNAMIC_BOOST .permissionDenied), fs) := by
  by_cases h : p.file HWP_DYNAMIC_BOOST ∈ fs.writable <;>
    simp [set_hwp_dynamic_boost, write_value, h]

theorem set_min_error_snd {p : PState} {fs : Fs} {m : Nat} {e : PStateError}
    (h : (p.set_min_perf_pct fs m).1 = .error e) :
    (p.set_min_perf_pct fs m).2 = fs := by
  rw [set_min_perf_pct_eq] at h ⊢
  by_cases hw : p.file MIN_PERF_PCT ∈ fs.writable <;> simp [hw] at h ⊢

theorem set_max_error_snd {p : PState} {fs : Fs} {m : Nat} {e : PStateError}
    (h : (p.set_max_perf_pct fs m).1 = .error e) :
    (p.set_max_perf_pct fs m).2 = fs := by
  rw [set_max_perf_pct_eq] at h ⊢
  by_cases hw : p.file MAX_PERF_PCT ∈ fs.writable <;> simp [hw] at h ⊢

theorem set_hwp_error_snd {p : PState} {fs : Fs} {b : Bool} {e : PStateError}
    (h : (p.set_hwp_dynamic_boost fs b).1 = .error e) :
    (p.set_hwp_dynamic_boost fs b).2 = fs := by
  rw [set_hwp_dynamic_boost_eq] at h ⊢
  by_cases hw : p.file HWP_DYNAMIC_BOOST ∈ fs.writable <;> simp [hw] at h ⊢

theorem set_values_eq (p : PState) (fs : Fs) (v : PStateValues) :
    p.set_values fs v =
      match p.set_min_perf_pct (afterBoost p fs v) v.min_perf_pct with
      | (.error e, fs1) => (.error e, fs1)
      | (.ok _, fs1) =>
        match p.set_max_perf_pct fs1 v.max_perf_pct with
        | (.error e, fs2) => (.error e, fs2)
        | (.ok _, fs2) => p.set_no_turbo fs2 v.no_turbo := rfl

end PState

theorem pair_eta_error {x : Except PStateError Unit × Fs} {e : PStateError}
    (h : x.1 = .error e) : x = (.error e, x.2) := by
  cases x with
  | mk a b => cases a <;> simp_all

/-! ## Claim theorems -/

/-- Claim C1 counterexample: with the `no_turbo` file holding `"2"`, the
getter returns `Ok(true)` — a boolean, not a `GetValue` parse error as the
claim requires for every content other than `"0"` and `"1"`. -/
theorem no_turbo_other_integer_ok :
    (PState.mk INTEL_PSTATE_PATH).no_turbo
      ⟨[INTEL_PSTATE_PATH], [(INTEL_PSTATE_PATH ++ NO_TURBO, "2")], []⟩ =
      .ok true := by
  decide

/-- Claim C1 (amended): reading `no_turbo` with trimmed content `"1"`
yields `true` and `"0"` yields `false`; more generally any content whose
trimmed form parses as a `u8` value `v` yields `v > 0` (so `"2"` yields
`true`), while content that does not parse as `u8` fails with a `GetValue`
parse error rather than returning a boolean. -/
theorem no_turbo_get_spec (p : PState) (fs : Fs) (s : String)
    (h : fs.read_to_string (p.file NO_TURBO) = .ok s) :
    (rustTrim s = "1" → p.no_turbo fs = .ok true)
  ∧ (rustTrim s = "0" → p.no_turbo fs = .ok false)
  ∧ (∀ v, parseU8 (rustTrim s) = .ok v → p.no_turbo fs = .ok (decide (v > 0)))
  ∧ (∀ msg, parseU8 (rustTrim s) = .error msg →
      p.no_turbo fs = .error (.getValue NO_TURBO (.invalidData msg))) := by
  have core : ∀ v, parseU8 (rustTrim s) = .ok v →
      p.no_turbo fs = .ok (decide (v > 0)) := by
    intro v hv
    simp [PState.no_turbo, parse_file, h, hv]
  have core_err : ∀ msg, parseU8 (rustTrim s) = .error msg →
      p.no_turbo fs = .error (.getValue NO_TURBO (.invalidData msg)) := by
    intro msg hm
    simp [PState.no_turbo, parse_file, h, hm]
  refine ⟨?_, ?_, core, core_err⟩
  · intro ht
    have := core 1 (by rw [ht]; decide)
    simpa using this
  · intro ht
    have := core 0 (by rw [ht]; decide)
    simpa using this

/-- Witness for the amended claim C1: content `" 1\n"` trims to `"1"` and
the getter returns `true`. -/
theorem no_turbo_get_spec_witness :
    (PState.mk INTEL_PSTATE_PATH).no_turbo
      ⟨[INTEL_PSTATE_PATH], [(INTEL_PSTATE_PATH ++ NO_TURBO, " 1\n")], []⟩ =
      .ok true :=
  (no_turbo_get_spec _ _ " 1\n" (by decide)).1 (by decide)

/-- Claim C4: the `hwp_dynamic_boost` getter first checks file existence:
absent gives the successful `Ok(None)`, not an error; present gives the
typed read, with a read/parse failure mapped to `GetValue` carrying the
field name and the cause, and success giving `Some(v == 1)`. -/
theorem hwp_dynamic_boost_get_spec (p : PState) (fs : Fs) :
    (fs.pathExists (p.file HWP_DYNAMIC_BOOST) = false →
       p.hwp_dynamic_boost fs = .ok none)
  ∧ (∀ e, fs.pathExists (p.file HWP_DYNAMIC_BOOST) = true →
       parse_file fs (p.file HWP_DYNAMIC_BOOST) = .error e →
       p.hwp_dynamic_boost fs = .error (.getValue HWP_DYNAMIC_BOOST e))
  ∧ (∀ v, fs.pathExists (p.file HWP_DYNAMIC_BOOST) = true →
       parse_file fs (p.file HWP_DYNAMIC_BOOST) = .ok v →
       p.hwp_dynamic_boost fs = .ok (some (v == 1))) := by
  refine ⟨?_, ?_, ?_⟩ <;> intros <;> simp [PState.hwp_dynamic_boost, *]

/-- Witness for claim C4: with the `hwp_dynamic_boost` file absent the
getter returns `Ok(None)`. -/
theorem hwp_dynamic_boost_get_spec_witness :
    (PState.mk INTEL_PSTATE_PATH).hwp_dynamic_boost
      ⟨[INTEL_PSTATE_PATH], [], []⟩ = .ok none :=
  (hwp_dynamic_boost_get_spec _ _).1 (by decide)

/-- Claim C5: `values` performs the individual gets (`min_perf_pct`,
`max_perf_pct`, `no_turbo`, `hwp_dynamic_boost` in that order) and
assembles the bundle; the first individual failure is returned as the
result of the bulk get. -/
theorem values_propagates_first_error (p : PState) (fs : Fs) :
    (∀ a b c d, p.min_perf_pct fs = .ok a → p.max_perf_pct fs = .ok b →
       p.no_turbo fs = .ok c → p.hwp_dynamic_boost fs = .ok d →
       p.values fs = .ok ⟨d, a, b, c⟩)
  ∧ (∀ e, p.min_perf_pct fs = .error e → p.values fs = .error e)
  ∧ (∀ a e, p.min_perf_pct fs = .ok a → p.max_perf_pct fs = .error e →
       p.values fs = .error e)
  ∧ (∀ a b e, p.min_perf_pct fs = .ok a → p.max_perf_pct fs = .ok b →
       p.no_turbo fs = .error e → p.values fs = .error e)
  ∧ (∀ a b c e, p.min_perf_pct fs = .ok a → p.max_perf_pct fs = .ok b →
       p.no_turbo fs = .ok c → p.hwp_dynamic_boost fs = .error e →
       p.values fs = .error e) := by
  refine ⟨?_, ?_, ?_, ?_, ?_⟩ <;> intros <;> simp [PState.values, *]

/-- Witness for claim C5: on an empty directory the first get
(`min_perf_pct`) fails with `NotFound`, and `values` returns exactly that
error. -/
theorem values_propagates_first_error_witness :
    (PState.mk INTEL_PSTATE_PATH).values ⟨[INTEL_PSTATE_PATH], [], []⟩ =
      .error (.getValue MIN_PERF_PCT .notFound) :=
  (values_propagates_first_error _ _).2.1
    (.getValue MIN_PERF_PCT .notFound) (by decide)

/-- Claim C6: construction probes only the fixed base directory: if it is
a directory the handle is returned, otherwise `NotFound`; the outcome
depends only on the directory structure, never on any parameter file's
presence or contents. -/
theorem new_probes_directory (fs : Fs) :
    (fs.isDir INTEL_PSTATE_PATH = true → PState.new fs = .ok ⟨INTEL_PSTATE_PATH⟩)
  ∧ (fs.isDir INTEL_PSTATE_PATH = false → PState.new fs = .error .notFound)
  ∧ (∀ fs' : Fs, fs'.dirs = fs.dirs → PState.new fs' = PState.new fs) := by
  refine ⟨?_, ?_, ?_⟩
  · intro h; simp [PState.new, h]
  · intro h; simp [PState.new, h]
  · intro fs' hd; simp [PState.new, Fs.isDir, hd]

/-- Witness for claim C6: construction against a filesystem without the
base directory yields `NotFound`. -/
theorem new_probes_directory_witness :
    PState.new ⟨[], [], []⟩ = .error .notFound :=
  (new_probes_directory ⟨[], [], []⟩).2.1 (by decide)

/-- Claim C7: a successful `set_no_turbo(true)` leaves the `no_turbo` file
holding exactly `"1"`, and `set_no_turbo(false)` exactly `"0"`, whatever
the file held before. -/
theorem set_no_turbo_writes_canonical (p : PState) (fs : Fs) :
    (∀ fs', p.set_no_turbo fs true = (.ok (), fs') →
       fs'.read_to_string (p.file NO_TURBO) = .ok "1")
  ∧ (∀ fs', p.set_no_turbo fs false = (.ok (), fs') →
       fs'.read_to_string (p.file NO_TURBO) = .ok "0") := by
  constructor <;>
  · intro fs' hset
    rw [PState.set_no_turbo_eq] at hset
    by_cases hw : fs.writable.contains (p.file NO_TURBO) = true
    · rw [if_pos hw] at hset
      injection hset with h1 h2
      rw [← h2]
      exact read_setFile fs (p.file NO_TURBO) _
    · rw [if_neg hw] at hset
      simp at hset

/-- Witness for claim C7: setting `no_turbo` to `true` over a file that
previously held `"0"` leaves it holding exactly `"1"`. -/
theorem set_no_turbo_writes_canonical_witness :
    ((((PState.mk INTEL_PSTATE_PATH).set_no_turbo
        ⟨[INTEL_PSTATE_PATH], [(INTEL_PSTATE_PATH ++ NO_TURBO, "0")],
         [INTEL_PSTATE_PATH ++ NO_TURBO]⟩ true).2).read_to_string
      (INTEL_PSTATE_PATH ++ NO_TURBO)) = .ok "1" :=
  (set_no_turbo_writes_canonical (PState.mk INTEL_PSTATE_PATH)
      ⟨[INTEL_PSTATE_PATH], [(INTEL_PSTATE_PATH ++ NO_TURBO, "0")],
       [INTEL_PSTATE_PATH ++ NO_TURBO]⟩).1 _ (by decide)

/-- Claim C8: for every field, a backing file whose trimmed content does
not parse as `u8` makes the getter fail with `GetValue` carrying the
field name and the parse cause; no default value is returned. -/
theorem get_parse_failure_is_get_value (p : PState) (fs : Fs) :
    (∀ s msg, fs.read_to_string (p.file MIN_PERF_PCT) = .ok s →
       parseU8 (rustTrim s) = .error msg →
       p.min_perf_pct fs = .error (.getValue MIN_PERF_PCT (.invalidData msg)))
  ∧ (∀ s msg, fs.read_to_string (p.file MAX_PERF_PCT) = .ok s →
       parseU8 (rustTrim s) = .error msg →
       p.max_perf_pct fs = .error (.getValue MAX_PERF_PCT (.invalidData msg)))
  ∧ (∀ s msg, fs.read_to_string (p.file NO_TURBO) = .ok s →
       parseU8 (rustTrim s) = .error msg →
       p.no_turbo fs = .error (.getValue NO_TURBO (.invalidData msg)))
  ∧ (∀ s msg, fs.read_to_string (p.file HWP_DYNAMIC_BOOST) = .ok s →
       parseU8 (rustTrim s) = .error msg →
       p.hwp_dynamic_boost fs =
         .error (.getValue HWP_DYNAMIC_BOOST (.invalidData msg))) := by
  refine ⟨?_, ?_, ?_, ?_⟩
  · intro s msg hr hp; simp [PState.min_perf_pct, parse_file, hr, hp]
  · intro s msg hr hp; simp [PState.max_perf_pct, parse_file, hr, hp]
  · intro s msg hr hp; simp [PState.no_turbo, parse_file, hr, hp]
  · intro s msg hr hp
    have hex := pathExists_of_read_ok hr
    simp [PState.hwp_dynamic_boost, hex, parse_file, hr, hp]

/-- Witness for claim C8: `min_perf_pct` over a file holding `"abc"`
fails with `GetValue` and the invalid-digit parse cause. -/
theorem get_parse_failure_is_get_value_witness :
    (PState.mk INTEL_PSTATE_PATH).min_perf_pct
      ⟨[INTEL_PSTATE_PATH], [(INTEL_PSTATE_PATH ++ MIN_PERF_PCT, "abc")], []⟩ =
      .error (.getValue MIN_PERF_PCT
        (.invalidData "invalid digit found in string")) :=
  (get_parse_failure_is_get_value _ _).1 "abc" _ (by decide) (by decide)

/-- Claim C3: for each of `min_perf_pct`, `max_perf_pct` and `no_turbo`,
a successful `set(v)` followed by `get` on the same field (no intervening
modification) returns `v`, for every value valid for the field's type
(`u8` for the integer fields, `Bool` for `no_turbo`). -/
theorem set_get_roundtrip (p : PState) (fs : Fs) :
    (∀ v fs', v ≤ 255 → p.set_min_perf_pct fs v = (.ok (), fs') →
       p.min_perf_pct fs' = .ok v)
  ∧ (∀ v fs', v ≤ 255 → p.set_max_perf_pct fs v = (.ok (), fs') →
       p.max_perf_pct fs' = .ok v)
  ∧ (∀ b fs', p.set_no_turbo fs b = (.ok (), fs') →
       p.no_turbo fs' = .ok b) := by
  refine ⟨?_, ?_, ?_⟩
  · intro v fs' hv hset
    rw [PState.set_min_perf_pct_eq] at hset
    by_cases hw : fs.writable.contains (p.file MIN_PERF_PCT) = true
    · rw [if_pos hw] at hset
      injection hset with h1 h2
      rw [← h2]
      simp [PState.min_perf_pct, parse_file, read_setFile,
        parseU8_toString_of_le hv]
    · rw [if_neg hw] at hset
      simp at hset
  · intro v fs' hv hset
    rw [PState.set_max_perf_pct_eq] at hset
    by_cases hw : fs.writable.contains (p.file MAX_PERF_PCT) = true
    · rw [if_pos hw] at hset
      injection hset with h1 h2
      rw [← h2]
      simp [PState.max_perf_pct, parse_file, read_setFile,
        parseU8_toString_of_le hv]
    · rw [if_neg hw] at hset
      simp at hset
  · intro b fs' hset
    rw [PState.set_no_turbo_eq] at hset
    by_cases hw : fs.writable.contains (p.file NO_TURBO) = true
    · rw [if_pos hw] at hset
      injection hset with h1 h2
      rw [← h2]
      cases b
      · simp [PState.no_turbo, parse_file, read_setFile,
          (by decide : parseU8 (rustTrim "0") = .ok 0)]
      · simp [PState.no_turbo, parse_file, read_setFile,
          (by decide : parseU8 (rustTrim "1") = .ok 1)]
    · rw [if_neg hw] at hset
      simp at hset

/-- Witness for claim C3: setting `min_perf_pct` to 57 on a writable file
and reading it back returns 57. -/
theorem set_get_roundtrip_witness :
    (PState.mk INTEL_PSTATE_PATH).min_perf_pct
      (((PState.mk INTEL_PSTATE_PATH).set_min_perf_pct
        ⟨[INTEL_PSTATE_PATH], [], [INTEL_PSTATE_PATH ++ MIN_PERF_PCT]⟩ 57).2) =
      .ok 57 :=
  (set_get_roundtrip (PState.mk INTEL_PSTATE_PATH)
      ⟨[INTEL_PSTATE_PATH], [], [INTEL_PSTATE_PATH ++ MIN_PERF_PCT]⟩).1
    57 _ (by decide) (by decide)

/-- Claim C9: when the `hwp_dynamic_boost` file exists and its trimmed
content parses as `u8` value `v`, the getter returns `Some(v == 1)` — so
`"2"` yields `Some(false)` without error — while `no_turbo` maps a parsed
`v` to `v > 0`, so `"2"` yields `true`: the two boolean getters decode
nonzero values other than 1 differently. -/
theorem boolean_getters_decode_differently (p : PState) (fs : Fs) :
    (∀ s v, fs.read_to_string (p.file HWP_DYNAMIC_BOOST) = .ok s →
       parseU8 (rustTrim s) = .ok v →
       p.hwp_dynamic_boost fs = .ok (some (v == 1)))
  ∧ (∀ s v, fs.read_to_string (p.file NO_TURBO) = .ok s →
       parseU8 (rustTrim s) = .ok v →
       p.no_turbo fs = .ok (decide (v > 0)))
  ∧ (∀ s, fs.read_to_string (p.file HWP_DYNAMIC_BOOST) = .ok s →
       rustTrim s = "2" → p.hwp_dynamic_boost fs = .ok (some false))
  ∧ (∀ s, fs.read_to_string (p.file NO_TURBO) = .ok s →
       rustTrim s = "2" → p.no_turbo fs = .ok true) := by
  have hwp_core : ∀ s v, fs.read_to_string (p.file HWP_DYNAMIC_BOOST) = .ok s →
      parseU8 (rustTrim s) = .ok v →
      p.hwp_dynamic_boost fs = .ok (some (v == 1)) := by
    intro s v hr hp
    have hex := pathExists_of_read_ok hr
    simp [PState.hwp_dynamic_boost, hex, parse_file, hr, hp]
  have nt_core : ∀ s v, fs.read_to_string (p.file NO_TURBO) = .ok s →
      parseU8 (rustTrim s) = .ok v →
      p.no_turbo fs = .ok (decide (v > 0)) := by
    intro s v hr hp
    simp [PState.no_turbo, parse_file, hr, hp]
  refine ⟨hwp_core, nt_core, ?_, ?_⟩
  · intro s hr ht
    have := hwp_core s 2 hr (by rw [ht]; decide)
    simpa using this
  · intro s hr ht
    have := nt_core s 2 hr (by rw [ht]; decide)
    simpa using this

/-- Witness for claim C9: content `"2"` in the `hwp_dynamic_boost` file
yields `Ok(Some(false))` — no error, and not the `true` that `no_turbo`
would produce for the same content. -/
theorem boolean_getters_decode_differently_witness :
    (PState.mk INTEL_PSTATE_PATH).hwp_dynamic_boost
      ⟨[INTEL_PSTATE_PATH], [(INTEL_PSTATE_PATH ++ HWP_DYNAMIC_BOOST, "2")],
       []⟩ = .ok (some false) :=
  (boolean_getters_decode_differently _ _).2.2.1 "2" (by decide) (by decide)

theorem parseU8_all_digits {t : String} (hne : t.toList ≠ [])
    (hd : t.toList.all Char.isDigit = true) :
    parseU8 t =
      (if t.toList.foldl (fun a c => a * 10 + (c.toNat - 48)) 0 ≤ 255
       then .ok (t.toList.foldl (fun a c => a * 10 + (c.toNat - 48)) 0)
       else .error "number too large to fit in target type") := by
  cases hcs : t.toList with
  | nil => exact absurd hcs hne
  | cons c rest =>
    rw [hcs] at hd
    have hc : c.isDigit = true := by
      simp [List.all_cons] at hd
      exact hd.1
    have hcp : ¬ (c = '+') := fun h => absurd hc (by rw [h]; decide)
    unfold parseU8
    rw [hcs]
    simp [hcp, hd]

/-- Claim C10: the integer getters parse as unsigned 8-bit: decimal text
whose value exceeds 255 (such as `"300"`) fails with a `GetValue` overflow
cause, and negative decimal text (such as `"-1"`) fails with a `GetValue`
invalid-digit cause, even though both are numeric. -/
theorem u8_range_enforced (p : PState) (fs : Fs) :
    (∀ s, fs.read_to_string (p.file MIN_PERF_PCT) = .ok s →
       (rustTrim s).toList ≠ [] →
       (rustTrim s).toList.all Char.isDigit = true →
       255 < (rustTrim s).toList.foldl (fun a c => a * 10 + (c.toNat - 48)) 0 →
       p.min_perf_pct fs = .error (.getValue MIN_PERF_PCT
         (.invalidData "number too large to fit in target type")))
  ∧ (∀ s, fs.read_to_string (p.file MAX_PERF_PCT) = .ok s →
       rustTrim s = "-1" →
       p.max_perf_pct fs = .error (.getValue MAX_PERF_PCT
         (.invalidData "invalid digit found in string"))) := by
  constructor
  · intro s hr hne hdig hlt
    have hp : parseU8 (rustTrim s) =
        .error "number too large to fit in target type" := by
      rw [parseU8_all_digits hne hdig, if_neg (by omega)]
    simp [PState.min_perf_pct, parse_file, hr, hp]
  · intro s hr ht
    have hp : parseU8 (rustTrim s) = .error "invalid digit found in string" := by
      rw [ht]; decide
    simp [PState.max_perf_pct, parse_file, hr, hp]

/-- Witness for claim C10: `min_perf_pct` over a file holding `"300"`
fails with the overflow parse cause. -/
theorem u8_range_enforced_witness :
    (PState.mk INTEL_PSTATE_PATH).min_perf_pct
      ⟨[INTEL_PSTATE_PATH], [(INTEL_PSTATE_PATH ++ MIN_PERF_PCT, "300")], []⟩ =
      .error (.getValue MIN_PERF_PCT
        (.invalidData "number too large to fit in target type")) :=
  (u8_range_enforced _ _).1 "300" (by decide) (by decide) (by decide)
    (by decide)

/-- Claim C2: in `set_values`, a failure to set the optional
`hwp_dynamic_boost` field is swallowed (the overall result is the same as
if the field had been absent from the bundle), while a failure of
`set_min_perf_pct` or `set_max_perf_pct` is propagated immediately as that
same error with the remaining sets aborted (the resulting filesystem state
is exactly the state before the failing set), and after both succeed the
result is exactly that of `set_no_turbo` (whose failure is likewise
propagated as itself). -/
theorem set_values_error_handling (p : PState) (fs : Fs) (v : PStateValues) :
    (∀ b eh, v.hwp_dynamic_boost = some b →
       (p.set_hwp_dynamic_boost fs b).1 = .error eh →
       p.set_values fs v = p.set_values fs { v with hwp_dynamic_boost := none })
  ∧ (∀ e, (p.set_min_perf_pct (PState.afterBoost p fs v) v.min_perf_pct).1 =
        .error e →
       p.set_values fs v = (.error e, PState.afterBoost p fs v))
  ∧ (∀ fs1 e, p.set_min_perf_pct (PState.afterBoost p fs v) v.min_perf_pct =
        (.ok (), fs1) →
       (p.set_max_perf_pct fs1 v.max_perf_pct).1 = .error e →
       p.set_values fs v = (.error e, fs1))
  ∧ (∀ fs1 fs2, p.set_min_perf_pct (PState.afterBoost p fs v) v.min_perf_pct =
        (.ok (), fs1) →
       p.set_max_perf_pct fs1 v.max_perf_pct = (.ok (), fs2) →
       p.set_values fs v = p.set_no_turbo fs2 v.no_turbo) := by
  refine ⟨?_, ?_, ?_, ?_⟩
  · intro b eh hb he
    have hsnd := PState.set_hwp_error_snd he
    have hab : PState.afterBoost p fs v = fs := by
      simp [PState.afterBoost, hb, hsnd]
    have hab2 : PState.afterBoost p fs { v with hwp_dynamic_boost := none } =
        fs := by
      simp [PState.afterBoost]
    rw [PState.set_values_eq, PState.set_values_eq, hab, hab2]
  · intro e he
    have hsnd := PState.set_min_error_snd he
    have hpair := pair_eta_error he
    rw [hsnd] at hpair
    rw [PState.set_values_eq, hpair]
  · intro fs1 e hmin hmax
    have hsnd := PState.set_max_error_snd hmax
    have hpair := pair_eta_error hmax
    rw [hsnd] at hpair
    simp only [PState.set_values_eq, hmin, hpair]
  · intro fs1 fs2 hmin hmax
    simp only [PState.set_values_eq, hmin, hmax]

/-- Witness for claim C2: with no path writable, the `hwp_dynamic_boost`
write failure is swallowed and `set_values` fails with the
`min_perf_pct` set error, leaving the filesystem unchanged. -/
theorem set_values_error_handling_witness :
    (PState.mk INTEL_PSTATE_PATH).set_values ⟨[INTEL_PSTATE_PATH], [], []⟩
      ⟨some true, 10, 90, false⟩ =
      (.error (.setValue MIN_PERF_PCT .permissionDenied),
       ⟨[INTEL_PSTATE_PATH], [], []⟩) :=
  (set_values_error_handling (PState.mk INTEL_PSTATE_PATH)
      ⟨[INTEL_PSTATE_PATH], [], []⟩ ⟨some true, 10, 90, false⟩).2.1
    (.setValue MIN_PERF_PCT .permissionDenied) (by decide)

end IntelPstate
